import Mathlib

/-!
Verification development for the adaptive quality controller of the
multi-party conferencing client (enhanced client variant).

The embedding models, over exact rational arithmetic:
- the per-link stats analysis (bitrate / packet-loss deltas, RTT source
  chain, receiver-reported and inbound fallbacks, final clamping),
- the quality classifier threshold bands,
- the global adaptation cycle (aggregation over peers, transition rules,
  application of encoding directives to senders),
- the adaptive-mode toggle,
- the active-speaker detector.

Numbers are modelled as rationals; the thrown/caught failures of the
constraint- and parameter-application calls are modelled as explicit
boolean flags on a sender descriptor.
-/

/-- The four discrete operating quality levels. -/
inductive QualityLevel
  | AUDIO_ONLY
  | LOW
  | MEDIUM
  | HIGH
  deriving DecidableEq, Repr

/-- Numeric rank of a quality level; lower is worse. -/
def QualityLevel.rank : QualityLevel → Nat
  | .AUDIO_ONLY => 0
  | .LOW => 1
  | .MEDIUM => 2
  | .HIGH => 3

/-- Cumulative outbound-rtp counters of one report. -/
structure OutboundRTP where
  bytesSent : ℚ
  packetsSent : ℚ
  packetsLost : ℚ
  deriving DecidableEq, Repr

/-- Cumulative inbound-rtp counters of one report. -/
structure InboundRTP where
  packetsLost : ℚ
  packetsReceived : ℚ
  jitter : ℚ
  deriving DecidableEq, Repr

/-- Receiver-reported (remote-inbound-rtp) counters of one report. -/
structure RemoteInboundRTP where
  packetsLost : ℚ
  packetsReceived : ℚ
  roundTripTime : ℚ
  deriving DecidableEq, Repr

/-- Selected candidate-pair report. -/
structure CandidatePair where
  currentRoundTripTime : ℚ
  deriving DecidableEq, Repr

/-- The reports extracted from one raw stats snapshot, after the dispatch
loop that sorts reports by type and media kind. -/
structure StatsInput where
  outboundVideo : Option OutboundRTP
  outboundAudio : Option OutboundRTP
  inboundVideo : Option InboundRTP
  inboundAudio : Option InboundRTP
  candidate : Option CandidatePair
  remoteInboundVideo : Option RemoteInboundRTP
  remoteInboundAudio : Option RemoteInboundRTP
  deriving DecidableEq, Repr

/-- Derived per-link metrics; also stores the raw outbound reports for the
next tick's delta computation, as the source does. -/
structure LinkMetrics where
  timestamp : ℚ
  videoBitrate : ℚ
  audioBitrate : ℚ
  videoPacketLoss : ℚ
  audioPacketLoss : ℚ
  rtt : ℚ
  jitter : ℚ
  quality : QualityLevel
  outboundVideo : Option OutboundRTP
  outboundAudio : Option OutboundRTP
  deriving DecidableEq, Repr

/-- Bandwidth threshold for low-quality video (bits per second). -/
def BANDWIDTH_THRESHOLDS_LOW : ℚ := 150000

/-- Bandwidth threshold for medium-quality video (bits per second). -/
def BANDWIDTH_THRESHOLDS_MEDIUM : ℚ := 500000

/-- Minimum audio level for a participant to count as speaking. -/
def AUDIO_LEVEL_THRESHOLD : ℚ := 1 / 100

/-- Threshold bands mapping one link's metrics to a verdict, first match
wins; this is the non-grace branch of the quality determination. -/
def classifyQuality (rtt totalPacketLoss totalBitrate : ℚ) : QualityLevel :=
  if rtt > 500 ∨ totalPacketLoss > 15 then .AUDIO_ONLY
  else if totalPacketLoss > 8 ∨ rtt > 400 ∨
      (totalBitrate < BANDWIDTH_THRESHOLDS_LOW ∧ totalBitrate > 60000) then .LOW
  else if totalPacketLoss > 3 ∨ rtt > 200 ∨
      (totalBitrate < BANDWIDTH_THRESHOLDS_MEDIUM ∧ totalBitrate > 60000) then .MEDIUM
  else if totalPacketLoss < 2 ∧ rtt < 150 then .HIGH
  else .MEDIUM

/-- Outbound bitrate and packet-loss deltas between the current report and
the previous tick's stored report. -/
def outboundDelta (now : ℚ) (curr : OutboundRTP) (prevTimestamp : ℚ)
    (prev : OutboundRTP) : ℚ × ℚ :=
  let timeDelta := (now - prevTimestamp) / 1000
  let bytesDelta := curr.bytesSent - prev.bytesSent
  let bitrate := bytesDelta * 8 / timeDelta
  let packetsDelta := curr.packetsSent - prev.packetsSent
  let packetsLostDelta := curr.packetsLost - prev.packetsLost
  let loss :=
    if packetsDelta > 0 ∧ packetsLostDelta ≥ 0 then
      min 100 (packetsLostDelta / packetsDelta * 100)
    else 0
  (bitrate, loss)

/-- Whether a remote-inbound report carries a usable packet sample. -/
def hasRemoteSample (r : Option RemoteInboundRTP) : Bool :=
  match r with
  | some ri =>
    if (ri.packetsReceived > 0 ∨ ri.packetsLost > 0) ∧
        ri.packetsLost + ri.packetsReceived > 0 then true else false
  | none => false

/-- Receiver-reported loss percentage of a remote-inbound report, 0 when
the sample is unusable. -/
def remoteLossPct (r : Option RemoteInboundRTP) : ℚ :=
  match r with
  | some ri =>
    if (ri.packetsReceived > 0 ∨ ri.packetsLost > 0) ∧
        ri.packetsLost + ri.packetsReceived > 0 then
      ri.packetsLost / (ri.packetsLost + ri.packetsReceived) * 100
    else 0
  | none => 0

/-- RTT from the remote-inbound audio report, last source in the chain. -/
def rttFromRemoteAudio (ria : Option RemoteInboundRTP) : ℚ :=
  match ria with
  | some r => if r.roundTripTime ≠ 0 then r.roundTripTime * 1000 else 0
  | none => 0

/-- RTT from the remote-inbound video report, falling back to audio. -/
def rttFromRemote (riv ria : Option RemoteInboundRTP) : ℚ :=
  match riv with
  | some r => if r.roundTripTime ≠ 0 then r.roundTripTime * 1000 else rttFromRemoteAudio ria
  | none => rttFromRemoteAudio ria

/-- RTT source chain: selected candidate pair first, then the
receiver-reported values for video, then audio, else 0. -/
def rttFromSources (cand : Option CandidatePair) (riv ria : Option RemoteInboundRTP) : ℚ :=
  match cand with
  | some c =>
    if c.currentRoundTripTime ≠ 0 then c.currentRoundTripTime * 1000
    else rttFromRemote riv ria
  | none => rttFromRemote riv ria

/-- Outbound deltas of one media kind, available only when both the current
report and the previous tick's stored report exist. -/
def outboundPair (now : ℚ) (curr : Option OutboundRTP) (prevTs : ℚ)
    (prevOut : Option OutboundRTP) : ℚ × ℚ :=
  match curr, prevOut with
  | some c, some p => outboundDelta now c prevTs p
  | _, _ => (0, 0)

/-- Per-link stats analysis for one tick: returns the derived metrics, or
nothing when the snapshot holds no rtp report at all. -/
def analyzeStats (now : ℚ) (s : StatsInput) (previousStats : Option LinkMetrics)
    (initialConnectionPhase : Bool) : Option LinkMetrics :=
  if s.outboundVideo = none ∧ s.outboundAudio = none ∧ s.inboundVideo = none ∧
      s.inboundAudio = none then
    none
  else
    let videoPair : ℚ × ℚ :=
      match previousStats with
      | some prev => outboundPair now s.outboundVideo prev.timestamp prev.outboundVideo
      | none => (0, 0)
    let audioPair : ℚ × ℚ :=
      match previousStats with
      | some prev => outboundPair now s.outboundAudio prev.timestamp prev.outboundAudio
      | none => (0, 0)
    let rtt := rttFromSources s.candidate s.remoteInboundVideo s.remoteInboundAudio
    let videoRemotePct := remoteLossPct s.remoteInboundVideo
    let audioRemotePct := remoteLossPct s.remoteInboundAudio
    let hasRemoteInboundStats :=
      hasRemoteSample s.remoteInboundVideo || hasRemoteSample s.remoteInboundAudio
    let videoLoss2 :=
      if hasRemoteInboundStats = true ∧ videoRemotePct < 100 then videoRemotePct
      else videoPair.2
    let audioLoss2 :=
      if hasRemoteInboundStats = true ∧ audioRemotePct < 100 then audioRemotePct
      else audioPair.2
    let videoLoss3 :=
      if videoLoss2 ≥ 100 ∨ audioLoss2 ≥ 100 then
        match s.inboundVideo with
        | some iv =>
          if iv.packetsLost + iv.packetsReceived > 100 then
            iv.packetsLost / (iv.packetsLost + iv.packetsReceived) * 100
          else videoLoss2
        | none => videoLoss2
      else videoLoss2
    let audioLoss3 :=
      if audioLoss2 ≥ 100 then
        match s.inboundAudio with
        | some ia =>
          if ia.packetsLost + ia.packetsReceived > 100 then
            ia.packetsLost / (ia.packetsLost + ia.packetsReceived) * 100
          else audioLoss2
        | none => audioLoss2
      else audioLoss2
    let videoPacketLoss := min 50 (max 0 videoLoss3)
    let audioPacketLoss := min 50 (max 0 audioLoss3)
    let jitter :=
      match s.inboundAudio with
      | some ia => ia.jitter
      | none => 0
    let totalBitrate := videoPair.1 + audioPair.1
    let totalPacketLoss := max videoPacketLoss audioPacketLoss
    let quality :=
      if initialConnectionPhase = true then QualityLevel.HIGH
      else classifyQuality rtt totalPacketLoss totalBitrate
    some {
      timestamp := now
      videoBitrate := videoPair.1
      audioBitrate := audioPair.1
      videoPacketLoss := videoPacketLoss
      audioPacketLoss := audioPacketLoss
      rtt := rtt
      jitter := jitter
      quality := quality
      outboundVideo := s.outboundVideo
      outboundAudio := s.outboundAudio }

/-- Accumulator of the per-peer aggregation loop of the adaptation cycle. -/
structure AggregateState where
  totalBitrate : ℚ
  maxPacketLoss : ℚ
  maxRtt : ℚ
  peerCount : Nat
  worstQuality : QualityLevel
  deriving DecidableEq, Repr

/-- Initial accumulator of the aggregation loop. -/
def aggregateInit : AggregateState :=
  { totalBitrate := 0, maxPacketLoss := 0, maxRtt := 0, peerCount := 0,
    worstQuality := .HIGH }

/-- Update of the running worst verdict by one link's verdict. -/
def worstStep (worst q : QualityLevel) : QualityLevel :=
  if q = .AUDIO_ONLY then .AUDIO_ONLY
  else if q = .LOW ∧ worst ≠ .AUDIO_ONLY then .LOW
  else if q = .MEDIUM ∧ worst = .HIGH then .MEDIUM
  else worst

/-- One step of the aggregation loop over the stored per-peer metrics. -/
def aggregateStep (st : AggregateState) (m : LinkMetrics) : AggregateState :=
  { totalBitrate := st.totalBitrate + (m.videoBitrate + m.audioBitrate)
    maxPacketLoss := max st.maxPacketLoss (max m.videoPacketLoss m.audioPacketLoss)
    maxRtt := max st.maxRtt m.rtt
    peerCount := st.peerCount + 1
    worstQuality := worstStep st.worstQuality m.quality }

/-- Aggregation of all stored per-peer metrics. -/
def aggregate (stats : List LinkMetrics) : AggregateState :=
  stats.foldl aggregateStep aggregateInit

/-- Transition rules of the adaptation controller: target quality from the
current quality and the aggregated worst verdict and metric maxima. -/
def decideTarget (current worstQuality : QualityLevel) (maxPacketLoss maxRtt : ℚ) :
    QualityLevel :=
  if worstQuality = .AUDIO_ONLY ∨ maxPacketLoss > 15 ∨ maxRtt > 3000 then .AUDIO_ONLY
  else if current = .AUDIO_ONLY ∧ maxPacketLoss ≤ 10 ∧ maxRtt ≤ 1000 then .LOW
  else if worstQuality = .LOW ∨ maxPacketLoss > 8 ∨ maxRtt > 500 then
    if current ≠ .AUDIO_ONLY then .LOW else current
  else if worstQuality = .MEDIUM ∨ maxPacketLoss > 3 ∨ maxRtt > 200 then
    if current = .HIGH ∨ current = .LOW then .MEDIUM else current
  else if (worstQuality = .HIGH ∨ current ≠ .HIGH) ∧ maxPacketLoss < 2 ∧ maxRtt < 150 then
    .HIGH
  else current

/-- One video sender as seen by the directive-application code: whether it
carries a track, and whether each of the two awaited application calls
(track constraints, encoder parameters) throws; also whether encoder
parameters expose an encodings entry. -/
structure SenderApply where
  hasTrack : Bool
  applyConstraintsThrows : Bool
  hasEncodings : Bool
  setParametersThrows : Bool
  deriving DecidableEq, Repr

/-- Applying one quality directive to one sender: returns the value of the
global current quality after the call. The AUDIO_ONLY branch assigns
immediately after disabling the track; the video branch assigns only after
both awaited application calls return, and a thrown error is caught,
leaving the global unassigned. -/
def adjustVideoQuality (quality : QualityLevel) (sender : SenderApply)
    (current : QualityLevel) : QualityLevel :=
  if sender.hasTrack = false then current
  else if quality = .AUDIO_ONLY then .AUDIO_ONLY
  else if sender.applyConstraintsThrows = true then current
  else if sender.hasEncodings = true ∧ sender.setParametersThrows = true then current
  else quality

/-- Applying a quality directive to every collected video sender in turn;
per-sender errors are isolated, as in the source's try/catch around each
call. -/
def adjustVideoQualityForAllPeers (quality : QualityLevel) (senders : List SenderApply)
    (current : QualityLevel) : QualityLevel :=
  senders.foldl (fun cur s => adjustVideoQuality quality s cur) current

/-- One adaptation pass: guard on stream and adaptive mode, aggregate all
stored metrics, decide the target, and apply it when it differs from the
current quality. Returns the current quality after the pass. -/
def adaptToNetworkConditions (localStream isAdaptiveMode : Bool)
    (current : QualityLevel) (stats : List LinkMetrics)
    (senders : List SenderApply) : QualityLevel :=
  if localStream = false ∨ isAdaptiveMode = false then current
  else
    let agg := aggregate stats
    if agg.peerCount = 0 then current
    else
      let targetQuality := decideTarget current agg.worstQuality agg.maxPacketLoss agg.maxRtt
      if targetQuality ≠ current then
        adjustVideoQualityForAllPeers targetQuality senders current
      else current

/-- Clicking the adaptive-mode toggle: flips the mode and, when the mode is
now off and the current quality is not HIGH, immediately applies HIGH to
all peers. Returns the new mode and current quality. -/
def adaptiveModeToggleClick (isAdaptiveMode : Bool) (current : QualityLevel)
    (senders : List SenderApply) : Bool × QualityLevel :=
  let newMode := !isAdaptiveMode
  if newMode = false ∧ current ≠ .HIGH then
    (newMode, adjustVideoQualityForAllPeers .HIGH senders current)
  else (newMode, current)

/-- Global state read and written by the monitoring cycle. -/
structure GlobalState where
  currentVideoQuality : QualityLevel
  isAdaptiveMode : Bool
  localStream : Bool
  initialConnectionPhase : Bool
  connectionStartTime : Option ℚ
  networkStats : List (Nat × LinkMetrics)
  deriving DecidableEq, Repr

/-- Lookup of a peer's stored metrics in the stats store. -/
def lookupStats : List (Nat × LinkMetrics) → Nat → Option LinkMetrics
  | [], _ => none
  | (k, m) :: t, pid => if k = pid then some m else lookupStats t pid

/-- Insert-or-replace of a peer's metrics in the stats store. -/
def setStats : List (Nat × LinkMetrics) → Nat → LinkMetrics → List (Nat × LinkMetrics)
  | [], pid, m => [(pid, m)]
  | (k, m0) :: t, pid, m =>
    if k = pid then (pid, m) :: t else (k, m0) :: setStats t pid m

/-- Whether the initial-connection grace flag expires this cycle: the flag
is set, a connection start time exists, and more than 10 seconds elapsed. -/
def graceExpiredCheck (phase : Bool) (connectionStartTime : Option ℚ) (now : ℚ) : Bool :=
  match phase, connectionStartTime with
  | true, some t => if now - t > 10000 then true else false
  | _, _ => false

/-- One monitoring cycle: clear the grace flag once expired, analyze every
peer's snapshot with the (possibly just cleared) flag, store the results,
then run one adaptation pass when any metrics are stored. -/
def monitorNetworkQuality (now : ℚ) (st : GlobalState)
    (inputs : List (Nat × StatsInput)) (senders : List SenderApply) : GlobalState :=
  let phase :=
    if graceExpiredCheck st.initialConnectionPhase st.connectionStartTime now = true then
      false
    else st.initialConnectionPhase
  let stats := inputs.foldl (fun acc p =>
    match analyzeStats now p.2 (lookupStats acc p.1) phase with
    | some m => setStats acc p.1 m
    | none => acc) st.networkStats
  let newQuality :=
    if stats.length > 0 then
      adaptToNetworkConditions st.localStream st.isAdaptiveMode st.currentVideoQuality
        (stats.map Prod.snd) senders
    else st.currentVideoQuality
  { st with
    initialConnectionPhase := phase
    networkStats := stats
    currentVideoQuality := newQuality }

/-- One participant's monitored audio level and the time it was recorded. -/
structure AudioLevelEntry where
  level : ℚ
  timestamp : ℚ
  deriving DecidableEq, Repr

/-- One step of the active-speaker scan: a participant replaces the running
best when the level is recent, beats the running best, and exceeds the
speaking threshold. -/
def speakerFold (now : ℚ) (acc : ℚ × Option Nat) (p : Nat × AudioLevelEntry) :
    ℚ × Option Nat :=
  if now - p.2.timestamp < 2000 ∧ p.2.level > acc.1 ∧ p.2.level > AUDIO_LEVEL_THRESHOLD then
    (p.2.level, some p.1)
  else acc

/-- One active-speaker tick: returns the new active speaker and whether the
layout/bandwidth re-allocation action was emitted. Returns unchanged with
no action when the level store is empty. -/
def updateActiveSpeaker (now : ℚ) (audioLevels : List (Nat × AudioLevelEntry))
    (activeSpeaker : Option Nat) : Option Nat × Bool :=
  if audioLevels.length = 0 then (activeSpeaker, false)
  else
    let scan := audioLevels.foldl (speakerFold now) (0, none)
    if scan.2 ≠ activeSpeaker then (scan.2, true) else (activeSpeaker, false)

/-- A sender descriptor on which applying the given quality directive runs
to the assignment of the global quality variable. -/
def senderCanSet (q : QualityLevel) (s : SenderApply) : Prop :=
  s.hasTrack = true ∧
    (q = .AUDIO_ONLY ∨
      (s.applyConstraintsThrows = false ∧
        (s.hasEncodings = false ∨ s.setParametersThrows = false)))

/-- Metrics stored for the peer before the C2 counterexample cycle. -/
def C2prevMetrics : LinkMetrics :=
  ⟨4000, 0, 0, 0, 0, 0, 0, .HIGH, some ⟨0, 0, 0⟩, none⟩

/-- Snapshot of the C2 counterexample cycle: 100 packets sent, 20 lost. -/
def C2input : StatsInput :=
  ⟨some ⟨100000, 100, 20⟩, none, none, none, none, none, none⟩

/-- Global state at the start of the C2 counterexample cycle: grace period
active (connection started at 0, now 5000), quality HIGH. -/
def C2state : GlobalState := ⟨.HIGH, true, true, true, some 0, [(0, C2prevMetrics)]⟩

/-- Metrics the analyzer derives in the C2 counterexample cycle: 20% video
loss measured, verdict forced to HIGH by the grace flag. -/
def C2newMetrics : LinkMetrics :=
  ⟨5000, 800000, 0, 20, 0, 0, 0, .HIGH, some ⟨100000, 100, 20⟩, none⟩

/-- Stored metrics of the C3 counterexample peer: verdict AUDIO_ONLY from
rtt 600ms with zero loss. -/
def C3badVerdict : LinkMetrics := ⟨0, 0, 0, 0, 0, 600, 0, .AUDIO_ONLY, none, none⟩

/-- Input of the C1 witness: a single outbound video report. -/
def C1input : StatsInput := ⟨some ⟨0, 0, 0⟩, none, none, none, none, none, none⟩

/-- Metrics stored for the peer before the C6 counterexample tick. -/
def C6prev : LinkMetrics := ⟨4000, 0, 0, 0, 0, 0, 0, .HIGH, some ⟨0, 0, 0⟩, none⟩

/-- Snapshot of the C6 counterexample tick: a 10-packet window with 5 lost. -/
def C6input : StatsInput := ⟨some ⟨1000, 10, 5⟩, none, none, none, none, none, none⟩

/-- Snapshot of the C7 counterexample tick: an outbound video report is
present but there is no previous snapshot. -/
def C7input : StatsInput := ⟨some ⟨500, 40, 1⟩, none, none, none, none, none, none⟩

/-- Stored metrics whose timestamp equals the C7 counterexample tick's
current time, making the time delta zero. -/
def C7prevSame : LinkMetrics := ⟨1000, 0, 0, 0, 0, 0, 0, .HIGH, some ⟨0, 0, 0⟩, none⟩

/-- Metrics stored before the C8 counterexample tick: 1000 bytes already
sent on video. -/
def C8prev : LinkMetrics := ⟨4000, 0, 0, 0, 0, 0, 0, .HIGH, some ⟨1000, 0, 0⟩, none⟩

/-- Snapshot of the C8 counterexample tick: the byte counter decreased from
1000 to 500. -/
def C8input : StatsInput := ⟨some ⟨500, 0, 0⟩, none, none, none, none, none, none⟩

/-! Helper lemmas shared by the claim theorems. -/

lemma adjustVideoQuality_self (q : QualityLevel) (s : SenderApply) :
    adjustVideoQuality q s q = q := by
  unfold adjustVideoQuality
  split_ifs <;> simp_all

lemma adjustAll_self (q : QualityLevel) (senders : List SenderApply) :
    adjustVideoQualityForAllPeers q senders q = q := by
  induction senders with
  | nil => rfl
  | cons s t ih =>
    unfold adjustVideoQualityForAllPeers at ih ⊢
    rw [List.foldl_cons, adjustVideoQuality_self]
    exact ih

lemma adjustVideoQuality_sets (q : QualityLevel) (s : SenderApply) (cur : QualityLevel)
    (h : senderCanSet q s) : adjustVideoQuality q s cur = q := by
  obtain ⟨ht, hrest⟩ := h
  unfold adjustVideoQuality
  rcases hrest with hq | ⟨ha, he⟩ <;> split_ifs <;> simp_all

lemma adjustAll_sets (q : QualityLevel) :
    ∀ (senders : List SenderApply) (cur : QualityLevel),
      (∃ s ∈ senders, senderCanSet q s) → adjustVideoQualityForAllPeers q senders cur = q := by
  intro senders
  induction senders with
  | nil =>
    intro cur h
    rcases h with ⟨s, hs, _⟩
    cases hs
  | cons a t ih =>
    intro cur h
    rcases h with ⟨s, hs, hset⟩
    unfold adjustVideoQualityForAllPeers at ih ⊢
    rw [List.foldl_cons]
    rcases List.mem_cons.mp hs with h1 | hmem
    · subst h1
      rw [adjustVideoQuality_sets _ _ _ hset]
      exact adjustAll_self q t
    · exact ih _ ⟨s, hmem, hset⟩

lemma aggregate_fields (l : List LinkMetrics) :
    ∀ acc : AggregateState,
      (List.foldl aggregateStep acc l).maxPacketLoss =
        l.foldl (fun a m => max a (max m.videoPacketLoss m.audioPacketLoss)) acc.maxPacketLoss ∧
      (List.foldl aggregateStep acc l).maxRtt =
        l.foldl (fun a m => max a m.rtt) acc.maxRtt ∧
      (List.foldl aggregateStep acc l).worstQuality =
        l.foldl (fun w m => worstStep w m.quality) acc.worstQuality ∧
      (List.foldl aggregateStep acc l).peerCount = acc.peerCount + l.length := by
  induction l with
  | nil => intro acc; simp
  | cons m t ih =>
    intro acc
    simp only [List.foldl_cons, List.length_cons]
    obtain ⟨h1, h2, h3, h4⟩ := ih (aggregateStep acc m)
    refine ⟨?_, ?_, ?_, ?_⟩
    · rw [h1]; simp [aggregateStep]
    · rw [h2]; simp [aggregateStep]
    · rw [h3]; simp [aggregateStep]
    · rw [h4]; simp [aggregateStep]; omega

lemma foldl_max_le_init (g : LinkMetrics → ℚ) :
    ∀ (l : List LinkMetrics) (a : ℚ), a ≤ l.foldl (fun acc m => max acc (g m)) a := by
  intro l
  induction l with
  | nil => intro a; simp
  | cons m t ih =>
    intro a
    simp only [List.foldl_cons]
    exact le_trans (le_max_left a (g m)) (ih _)

lemma foldl_max_mem_le (g : LinkMetrics → ℚ) :
    ∀ (l : List LinkMetrics) (a : ℚ) (m : LinkMetrics), m ∈ l →
      g m ≤ l.foldl (fun acc x => max acc (g x)) a := by
  intro l
  induction l with
  | nil => intro a m hm; cases hm
  | cons x t ih =>
    intro a m hm
    simp only [List.foldl_cons]
    rcases List.mem_cons.mp hm with h1 | hmem
    · subst h1
      exact le_trans (le_max_right a (g m)) (foldl_max_le_init g t _)
    · exact ih _ m hmem

lemma foldl_max_attained (g : LinkMetrics → ℚ) :
    ∀ (l : List LinkMetrics) (a : ℚ),
      l.foldl (fun acc x => max acc (g x)) a = a ∨
        ∃ m ∈ l, l.foldl (fun acc x => max acc (g x)) a = g m := by
  intro l
  induction l with
  | nil => intro a; exact Or.inl rfl
  | cons x t ih =>
    intro a
    simp only [List.foldl_cons]
    rcases ih (max a (g x)) with h | ⟨m, hm, hEq⟩
    · rcases max_choice a (g x) with hc | hc
      · exact Or.inl (h.trans hc)
      · exact Or.inr ⟨x, List.mem_cons_self x t, h.trans hc⟩
    · exact Or.inr ⟨m, List.mem_cons_of_mem x hm, hEq⟩

lemma worstStep_cases (w q : QualityLevel) :
    (worstStep w q).rank ≤ w.rank ∧ (worstStep w q).rank ≤ q.rank ∧
      (worstStep w q = w ∨ worstStep w q = q) := by
  cases w <;> cases q <;> decide

lemma foldl_worst_le_init :
    ∀ (l : List LinkMetrics) (w : QualityLevel),
      (l.foldl (fun w m => worstStep w m.quality) w).rank ≤ w.rank := by
  intro l
  induction l with
  | nil => intro w; exact le_refl _
  | cons m t ih =>
    intro w
    simp only [List.foldl_cons]
    exact le_trans (ih _) (worstStep_cases w m.quality).1

lemma foldl_worst_mem_le :
    ∀ (l : List LinkMetrics) (w : QualityLevel) (m : LinkMetrics), m ∈ l →
      (l.foldl (fun w m => worstStep w m.quality) w).rank ≤ m.quality.rank := by
  intro l
  induction l with
  | nil => intro w m hm; cases hm
  | cons x t ih =>
    intro w m hm
    simp only [List.foldl_cons]
    rcases List.mem_cons.mp hm with h1 | hmem
    · subst h1
      exact le_trans (foldl_worst_le_init t _) (worstStep_cases w m.quality).2.1
    · exact ih _ m hmem

lemma foldl_worst_attained :
    ∀ (l : List LinkMetrics) (w : QualityLevel),
      l.foldl (fun w m => worstStep w m.quality) w = w ∨
        ∃ m ∈ l, l.foldl (fun w m => worstStep w m.quality) w = m.quality := by
  intro l
  induction l with
  | nil => intro w; exact Or.inl rfl
  | cons x t ih =>
    intro w
    simp only [List.foldl_cons]
    rcases ih (worstStep w x.quality) with h | ⟨m, hm, hEq⟩
    · rcases (worstStep_cases w x.quality).2.2 with hc | hc
      · exact Or.inl (h.trans hc)
      · exact Or.inr ⟨x, List.mem_cons_self x t, h.trans hc⟩
    · exact Or.inr ⟨m, List.mem_cons_of_mem x hm, hEq⟩

lemma rank_three_high (q : QualityLevel) (h : 3 ≤ q.rank) : q = .HIGH := by
  cases q <;> simp [QualityLevel.rank] at h ⊢

lemma aggregate_peerCount (stats : List LinkMetrics) :
    (aggregate stats).peerCount = stats.length := by
  have := (aggregate_fields stats aggregateInit).2.2.2
  simpa [aggregate, aggregateInit] using this

lemma decideTarget_audio_only (current w : QualityLevel) (l r : ℚ)
    (h : w = .AUDIO_ONLY ∨ l > 15 ∨ r > 3000) :
    decideTarget current w l r = .AUDIO_ONLY := by
  unfold decideTarget
  rw [if_pos h]

lemma adapt_to_audio_only (stats : List LinkMetrics) (senders : List SenderApply)
    (current : QualityLevel) (hne : stats ≠ [])
    (hs : ∃ s ∈ senders, s.hasTrack = true)
    (hcond : (aggregate stats).worstQuality = .AUDIO_ONLY ∨
      (aggregate stats).maxPacketLoss > 15 ∨ (aggregate stats).maxRtt > 3000) :
    adaptToNetworkConditions true true current stats senders = .AUDIO_ONLY := by
  unfold adaptToNetworkConditions
  have hlen : stats.length ≠ 0 := fun h0 => hne (List.length_eq_zero.mp h0)
  simp only [aggregate] at hcond ⊢
  rw [if_neg (by simp), if_neg (by rw [show List.foldl aggregateStep aggregateInit stats = aggregate stats from rfl, aggregate_peerCount]; exact hlen)]
  rw [decideTarget_audio_only _ _ _ _ hcond]
  by_cases hc : current = QualityLevel.AUDIO_ONLY
  · subst hc; simp
  · rw [if_pos (by simpa using Ne.symm hc)]
    exact adjustAll_sets _ _ _ (by
      rcases hs with ⟨s, hsm, ht⟩
      exact ⟨s, hsm, ht, Or.inl rfl⟩)

lemma adapt_disabled (ls : Bool) (cur : QualityLevel) (stats : List LinkMetrics)
    (senders : List SenderApply) :
    adaptToNetworkConditions ls false cur stats senders = cur := by
  simp [adaptToNetworkConditions]

/-- C10: when adjustVideoQuality runs on a sender with a track and a target
other than AUDIO_ONLY, and applying the video constraints or the encoder
parameters throws, the global current quality keeps its previous value for
that call; it is assigned (to the target) only when all apply steps
succeed; for target AUDIO_ONLY the assignment always takes effect. -/
theorem C10_adjust_quality_atomicity (q : QualityLevel) (s : SenderApply)
    (current : QualityLevel) (htrack : s.hasTrack = true) :
    (q ≠ .AUDIO_ONLY →
      s.applyConstraintsThrows = true ∨
        (s.hasEncodings = true ∧ s.setParametersThrows = true) →
      adjustVideoQuality q s current = current) ∧
    (q = .AUDIO_ONLY → adjustVideoQuality q s current = .AUDIO_ONLY) ∧
    (q ≠ .AUDIO_ONLY → s.applyConstraintsThrows = false →
      (s.hasEncodings = false ∨ s.setParametersThrows = false) →
      adjustVideoQuality q s current = q) := by
  unfold adjustVideoQuality
  refine ⟨?_, ?_, ?_⟩ <;> intro h1 <;> split_ifs <;> simp_all

/-- Witness for C10 at concrete inputs: a LOW directive whose constraint
application throws leaves the quality at HIGH, and an AUDIO_ONLY directive
on the same sender assigns AUDIO_ONLY. -/
theorem C10_witness :
    (QualityLevel.LOW ≠ .AUDIO_ONLY) ∧
    adjustVideoQuality .LOW ⟨true, true, false, false⟩ .HIGH = .HIGH ∧
    adjustVideoQuality .AUDIO_ONLY ⟨true, true, false, false⟩ .HIGH = .AUDIO_ONLY :=
  ⟨by decide,
    (C10_adjust_quality_atomicity .LOW ⟨true, true, false, false⟩ .HIGH rfl).1
      (by decide) (Or.inl rfl),
    (C10_adjust_quality_atomicity .AUDIO_ONLY ⟨true, true, false, false⟩ .HIGH rfl).2.1 rfl⟩

/-- C5: with adaptive mode disabled, no sequence of adaptation cycles with
any metrics changes the current quality (in particular it never moves away
from HIGH); and the toggle that turns adaptive mode off forces an immediate
transition to HIGH when the current quality is not already HIGH (the
application succeeding on at least one tracked sender). -/
theorem C5_adaptive_disabled_manual_high :
    (∀ (cycles : List (Bool × List LinkMetrics × List SenderApply)) (q : QualityLevel),
      cycles.foldl (fun cur c => adaptToNetworkConditions c.1 false cur c.2.1 c.2.2) q = q) ∧
    (∀ senders : List SenderApply, adaptiveModeToggleClick true .HIGH senders = (false, .HIGH)) ∧
    (∀ (current : QualityLevel) (senders : List SenderApply),
      current ≠ .HIGH →
      (∃ s ∈ senders, s.hasTrack = true ∧ s.applyConstraintsThrows = false ∧
        (s.hasEncodings = false ∨ s.setParametersThrows = false)) →
      adaptiveModeToggleClick true current senders = (false, .HIGH)) := by
  refine ⟨?_, ?_, ?_⟩
  · intro cycles
    induction cycles with
    | nil => intro q; rfl
    | cons c t ih =>
      intro q
      rw [List.foldl_cons, adapt_disabled]
      exact ih q
  · intro senders
    simp [adaptiveModeToggleClick]
  · intro current senders hcur hex
    unfold adaptiveModeToggleClick
    rw [if_pos (by simpa using hcur)]
    refine Prod.ext (by simp) ?_
    simp only
    refine adjustAll_sets _ _ _ ?_
    rcases hex with ⟨s, hsm, ht, ha, he⟩
    exact ⟨s, hsm, ht, Or.inr ⟨ha, he⟩⟩

/-- Witness for C5 at concrete inputs: two adaptation cycles with terrible
metrics and adaptive mode off keep HIGH, and toggling adaptive mode off at
LOW with one healthy sender forces HIGH. -/
theorem C5_witness :
    (QualityLevel.LOW ≠ .HIGH) ∧
    adaptiveModeToggleClick true .LOW [⟨true, false, false, false⟩] = (false, .HIGH) :=
  ⟨by decide,
    C5_adaptive_disabled_manual_high.2.2 .LOW [⟨true, false, false, false⟩] (by decide)
      ⟨⟨true, false, false, false⟩, by simp, rfl, rfl, Or.inl rfl⟩⟩

/-- C4: in every adaptation cycle with adaptive mode enabled and at least
one peer's metrics present, the aggregated maxLoss and maxRtt bound every
peer's loss and rtt and are attained by some peer (or the 0 start value),
the worst verdict is a lower bound of, and attained by, the per-link
verdicts (worst across links, not an average); and whenever the worst
verdict is AUDIO_ONLY, or maxLoss exceeds 15, or maxRtt exceeds 3000, the
cycle ends with current quality AUDIO_ONLY from any starting state. -/
theorem C4_worst_aggregation_degradation (stats : List LinkMetrics)
    (senders : List SenderApply) (current : QualityLevel)
    (hne : stats ≠ []) (hs : ∃ s ∈ senders, s.hasTrack = true) :
    (∀ m ∈ stats, max m.videoPacketLoss m.audioPacketLoss ≤ (aggregate stats).maxPacketLoss) ∧
    (∀ m ∈ stats, m.rtt ≤ (aggregate stats).maxRtt) ∧
    ((aggregate stats).maxPacketLoss = 0 ∨
      ∃ m ∈ stats, (aggregate stats).maxPacketLoss = max m.videoPacketLoss m.audioPacketLoss) ∧
    ((aggregate stats).maxRtt = 0 ∨ ∃ m ∈ stats, (aggregate stats).maxRtt = m.rtt) ∧
    (∀ m ∈ stats, ((aggregate stats).worstQuality).rank ≤ m.quality.rank) ∧
    (∃ m ∈ stats, (aggregate stats).worstQuality = m.quality) ∧
    ((aggregate stats).worstQuality = .AUDIO_ONLY ∨ (aggregate stats).maxPacketLoss > 15 ∨
        (aggregate stats).maxRtt > 3000 →
      adaptToNetworkConditions true true current stats senders = .AUDIO_ONLY) := by
  obtain ⟨hL, hR, hW, _⟩ := aggregate_fields stats aggregateInit
  have hL' : (aggregate stats).maxPacketLoss =
      stats.foldl (fun a m => max a (max m.videoPacketLoss m.audioPacketLoss)) 0 := by
    simpa [aggregate, aggregateInit] using hL
  have hR' : (aggregate stats).maxRtt = stats.foldl (fun a m => max a m.rtt) 0 := by
    simpa [aggregate, aggregateInit] using hR
  have hW' : (aggregate stats).worstQuality =
      stats.foldl (fun w m => worstStep w m.quality) .HIGH := by
    simpa [aggregate, aggregateInit] using hW
  refine ⟨?_, ?_, ?_, ?_, ?_, ?_, ?_⟩
  · intro m hm
    rw [hL']
    exact foldl_max_mem_le (fun m => max m.videoPacketLoss m.audioPacketLoss) stats 0 m hm
  · intro m hm
    rw [hR']
    exact foldl_max_mem_le (fun m => m.rtt) stats 0 m hm
  · rw [hL']
    exact foldl_max_attained (fun m => max m.videoPacketLoss m.audioPacketLoss) stats 0
  · rw [hR']
    exact foldl_max_attained (fun m => m.rtt) stats 0
  · intro m hm
    rw [hW']
    exact foldl_worst_mem_le stats .HIGH m hm
  · obtain ⟨m0, t, rfl⟩ : ∃ m0 t, stats = m0 :: t := by
      cases stats with
      | nil => exact absurd rfl hne
      | cons a b => exact ⟨a, b, rfl⟩
    rcases foldl_worst_attained (m0 :: t) .HIGH with h | ⟨m, hm, hEq⟩
    · refine ⟨m0, List.mem_cons_self m0 t, ?_⟩
      have hle := foldl_worst_mem_le (m0 :: t) .HIGH m0 (List.mem_cons_self m0 t)
      rw [h] at hle
      rw [hW', h]
      exact (rank_three_high m0.quality (by simpa [QualityLevel.rank] using hle)).symm
    · exact ⟨m, hm, by rw [hW']; exact hEq⟩
  · intro hcond
    exact adapt_to_audio_only stats senders current hne hs hcond

/-- Witness for C4 at concrete inputs: one healthy peer (loss 0, rtt 50,
verdict HIGH) and one bad peer (video loss 20, rtt 4000, verdict
AUDIO_ONLY) drive a HIGH state to AUDIO_ONLY in one cycle. -/
theorem C4_witness :
    ((aggregate [⟨0, 0, 0, 0, 0, 50, 0, .HIGH, none, none⟩,
        ⟨0, 0, 0, 20, 0, 4000, 0, .AUDIO_ONLY, none, none⟩]).maxPacketLoss > 15) ∧
    adaptToNetworkConditions true true .HIGH
      [⟨0, 0, 0, 0, 0, 50, 0, .HIGH, none, none⟩,
        ⟨0, 0, 0, 20, 0, 4000, 0, .AUDIO_ONLY, none, none⟩]
      [⟨true, false, false, false⟩] = .AUDIO_ONLY := by
  have h15 : (aggregate [(⟨0, 0, 0, 0, 0, 50, 0, .HIGH, none, none⟩ : LinkMetrics),
      ⟨0, 0, 0, 20, 0, 4000, 0, .AUDIO_ONLY, none, none⟩]).maxPacketLoss > 15 := by
    norm_num [aggregate, aggregateInit, aggregateStep]
  refine ⟨h15, ?_⟩
  exact (C4_worst_aggregation_degradation _ _ .HIGH (by simp)
    ⟨⟨true, false, false, false⟩, by simp, rfl⟩).2.2.2.2.2.2 (Or.inr (Or.inl h15))

/-- C2 counterexample: a monitoring cycle run 5 seconds after connection
start (inside the 10-second grace period, and the grace flag is still set
after the cycle) with one peer at 20% measured loss changes the current
quality from HIGH to AUDIO_ONLY in that same cycle, so the controller does
perform a quality transition during the grace period. -/
theorem C2_cex :
    C2state.initialConnectionPhase = true ∧
    (5000 : ℚ) - 0 < 10000 ∧
    C2state.currentVideoQuality = .HIGH ∧
    (monitorNetworkQuality 5000 C2state [(0, C2input)]
      [⟨true, false, false, false⟩]).initialConnectionPhase = true ∧
    (monitorNetworkQuality 5000 C2state [(0, C2input)]
      [⟨true, false, false, false⟩]).currentVideoQuality = .AUDIO_ONLY := by
  have hgrace : graceExpiredCheck true (some 0) 5000 = false := by
    norm_num [graceExpiredCheck]
  have hlook : lookupStats [(0, C2prevMetrics)] 0 = some C2prevMetrics := by
    simp [lookupStats]
  have hana : analyzeStats 5000 C2input (some C2prevMetrics) true = some C2newMetrics := by
    norm_num [analyzeStats, outboundPair, outboundDelta, C2input, C2prevMetrics, C2newMetrics,
      rttFromSources, rttFromRemote, rttFromRemoteAudio, remoteLossPct, hasRemoteSample,
      min_def, max_def, Option.some.injEq, LinkMetrics.mk.injEq, OutboundRTP.mk.injEq]
    intro h
    simp at h
  have hadapt : adaptToNetworkConditions true true .HIGH [C2newMetrics]
      [⟨true, false, false, false⟩] = .AUDIO_ONLY := by
    norm_num [adaptToNetworkConditions, aggregate, aggregateInit, aggregateStep, worstStep,
      decideTarget, C2newMetrics, adjustVideoQualityForAllPeers, adjustVideoQuality,
      min_def, max_def]
    decide
  refine ⟨rfl, by norm_num, rfl, ?_, ?_⟩ <;>
    simp [monitorNetworkQuality, hgrace, hlook, hana, hadapt, setStats, C2state]

/-- C2 (amended): during the grace period every link's classification
output is HIGH regardless of measured metrics; however the controller does
not skip its transition logic in a grace cycle: even with every stored
verdict HIGH, an aggregate maximum loss above 15% moves the current quality
to AUDIO_ONLY in that same cycle. -/
theorem C2_grace_forces_high_amended :
    (∀ (now : ℚ) (s : StatsInput) (prev : Option LinkMetrics) (m : LinkMetrics),
      analyzeStats now s prev true = some m → m.quality = .HIGH) ∧
    (∀ (current : QualityLevel) (stats : List LinkMetrics) (senders : List SenderApply),
      stats ≠ [] → (∀ m ∈ stats, m.quality = .HIGH) →
      (aggregate stats).maxPacketLoss > 15 →
      (∃ s ∈ senders, s.hasTrack = true) →
      adaptToNetworkConditions true true current stats senders = .AUDIO_ONLY) := by
  constructor
  · intro now s prev m h
    unfold analyzeStats at h
    split at h
    · exact absurd h (by simp)
    · simp only [Option.some.injEq] at h
      subst h
      rfl
  · intro current stats senders hne _ h15 hs
    exact adapt_to_audio_only stats senders current hne hs (Or.inr (Or.inl h15))

/-- Witness for C2 at concrete inputs: a single stored metrics entry with
verdict HIGH but measured video loss 20% drives a HIGH state to AUDIO_ONLY. -/
theorem C2_witness :
    ((aggregate [⟨0, 0, 0, 20, 0, 0, 0, .HIGH, none, none⟩]).maxPacketLoss > 15) ∧
    adaptToNetworkConditions true true .HIGH [⟨0, 0, 0, 20, 0, 0, 0, .HIGH, none, none⟩]
      [⟨true, false, false, false⟩] = .AUDIO_ONLY := by
  have h15 : (aggregate [(⟨0, 0, 0, 20, 0, 0, 0, .HIGH, none, none⟩ : LinkMetrics)]).maxPacketLoss
      > 15 := by
    norm_num [aggregate, aggregateInit, aggregateStep]
  refine ⟨h15, ?_⟩
  refine C2_grace_forces_high_amended.2 .HIGH _ _ (by simp) ?_ h15
    ⟨⟨true, false, false, false⟩, by simp, rfl⟩
  intro m hm
  rw [List.mem_singleton] at hm
  subst hm
  rfl

/-- C3 counterexample: a cycle starting at AUDIO_ONLY with maxLoss 0 (at
most 10) and maxRtt 600 (at most 1000) keeps AUDIO_ONLY instead of moving
one step to LOW, because the single peer's verdict is AUDIO_ONLY (which the
classifier really produces at rtt 600ms); so the recovery step does depend
on the per-link verdicts, not only on maxLoss and maxRtt. -/
theorem C3_cex :
    classifyQuality 600 (max 0 0) (0 + 0) = .AUDIO_ONLY ∧
    (aggregate [C3badVerdict]).maxPacketLoss ≤ 10 ∧
    (aggregate [C3badVerdict]).maxRtt ≤ 1000 ∧
    adaptToNetworkConditions true true .AUDIO_ONLY [C3badVerdict]
      [⟨true, false, false, false⟩] = .AUDIO_ONLY ∧
    QualityLevel.AUDIO_ONLY ≠ .LOW := by
  refine ⟨by norm_num [classifyQuality], ?_, ?_, ?_, by decide⟩ <;>
    norm_num [adaptToNetworkConditions, aggregate, aggregateInit, aggregateStep, worstStep,
      decideTarget, C3badVerdict, adjustVideoQualityForAllPeers, adjustVideoQuality]

/-- C3 (amended): from state AUDIO_ONLY the controller's target is never
MEDIUM or HIGH: it is LOW exactly when the aggregated worst verdict is not
AUDIO_ONLY, maxLoss is at most 10, and maxRtt is at most 1000; in every
other case it stays AUDIO_ONLY. -/
theorem C3_audio_only_recovery_amended (stats : List LinkMetrics) :
    (decideTarget .AUDIO_ONLY (aggregate stats).worstQuality (aggregate stats).maxPacketLoss
        (aggregate stats).maxRtt = .AUDIO_ONLY ∨
      decideTarget .AUDIO_ONLY (aggregate stats).worstQuality (aggregate stats).maxPacketLoss
        (aggregate stats).maxRtt = .LOW) ∧
    (decideTarget .AUDIO_ONLY (aggregate stats).worstQuality (aggregate stats).maxPacketLoss
        (aggregate stats).maxRtt = .LOW ↔
      (aggregate stats).worstQuality ≠ .AUDIO_ONLY ∧ (aggregate stats).maxPacketLoss ≤ 10 ∧
        (aggregate stats).maxRtt ≤ 1000) := by
  suffices h : ∀ (w : QualityLevel) (l r : ℚ),
      (decideTarget .AUDIO_ONLY w l r = .AUDIO_ONLY ∨ decideTarget .AUDIO_ONLY w l r = .LOW) ∧
        (decideTarget .AUDIO_ONLY w l r = .LOW ↔ w ≠ .AUDIO_ONLY ∧ l ≤ 10 ∧ r ≤ 1000) from
    h _ _ _
  intro w l r
  unfold decideTarget
  by_cases h1 : w = .AUDIO_ONLY ∨ l > 15 ∨ r > 3000
  · rw [if_pos h1]
    refine ⟨Or.inl rfl, ?_, ?_⟩
    · intro habs
      exact absurd habs (by decide)
    · rintro ⟨hw, hl, hr⟩
      rcases h1 with h | h | h
      · exact absurd h hw
      · linarith
      · linarith
  · rw [if_neg h1]
    by_cases h2 : QualityLevel.AUDIO_ONLY = .AUDIO_ONLY ∧ l ≤ 10 ∧ r ≤ 1000
    · rw [if_pos h2]
      refine ⟨Or.inr rfl, ?_, ?_⟩
      · intro _
        exact ⟨fun hw => h1 (Or.inl hw), h2.2.1, h2.2.2⟩
      · intro _
        rfl
    · rw [if_neg h2]
      have hlr : ¬(l ≤ 10 ∧ r ≤ 1000) := fun hx => h2 ⟨rfl, hx⟩
      have hend : ∀ (habs : QualityLevel.AUDIO_ONLY = .LOW → False),
          (QualityLevel.AUDIO_ONLY = .AUDIO_ONLY ∨ QualityLevel.AUDIO_ONLY = .LOW) ∧
            (QualityLevel.AUDIO_ONLY = .LOW ↔ w ≠ .AUDIO_ONLY ∧ l ≤ 10 ∧ r ≤ 1000) := by
        intro habs
        refine ⟨Or.inl rfl, ?_, ?_⟩
        · intro hx
          exact absurd hx (by decide)
        · rintro ⟨_, hl, hr⟩
          exact absurd ⟨hl, hr⟩ hlr
      by_cases h3 : w = .LOW ∨ l > 8 ∨ r > 500
      · rw [if_pos h3, if_neg (by simp)]
        exact hend (by decide)
      · rw [if_neg h3]
        by_cases h4 : w = .MEDIUM ∨ l > 3 ∨ r > 200
        · rw [if_pos h4, if_neg (by simp)]
          exact hend (by decide)
        · rw [if_neg h4]
          by_cases h5 : (w = .HIGH ∨ QualityLevel.AUDIO_ONLY ≠ .HIGH) ∧ l < 2 ∧ r < 150
          · exact absurd ⟨by linarith [h5.2.1], by linarith [h5.2.2]⟩ hlr
          · rw [if_neg h5]
            exact hend (by decide)

/-- C1: for every metrics input evaluated outside the grace period, the
classifier is total (exactly one of the four levels) and follows exactly
the first-match priority bands over loss = max(videoLoss, audioLoss) and
totalBitrate = videoBitrate + audioBitrate, including on zero and negative
inputs; and outside the grace period the analyzer's stored verdict is this
classifier applied to the derived metrics. -/
theorem C1_classifier_first_match_total
    (videoLoss audioLoss videoBitrate audioBitrate rtt : ℚ) :
    (classifyQuality rtt (max videoLoss audioLoss) (videoBitrate + audioBitrate) = .AUDIO_ONLY ∨
      classifyQuality rtt (max videoLoss audioLoss) (videoBitrate + audioBitrate) = .LOW ∨
      classifyQuality rtt (max videoLoss audioLoss) (videoBitrate + audioBitrate) = .MEDIUM ∨
      classifyQuality rtt (max videoLoss audioLoss) (videoBitrate + audioBitrate) = .HIGH) ∧
    (classifyQuality rtt (max videoLoss audioLoss) (videoBitrate + audioBitrate) = .AUDIO_ONLY ↔
      (rtt > 500 ∨ max videoLoss audioLoss > 15)) ∧
    (classifyQuality rtt (max videoLoss audioLoss) (videoBitrate + audioBitrate) = .LOW ↔
      (¬(rtt > 500 ∨ max videoLoss audioLoss > 15) ∧
        (max videoLoss audioLoss > 8 ∨ rtt > 400 ∨
          (videoBitrate + audioBitrate < 150000 ∧ videoBitrate + audioBitrate > 60000)))) ∧
    (classifyQuality rtt (max videoLoss audioLoss) (videoBitrate + audioBitrate) = .MEDIUM ↔
      (¬(rtt > 500 ∨ max videoLoss audioLoss > 15) ∧
        ¬(max videoLoss audioLoss > 8 ∨ rtt > 400 ∨
          (videoBitrate + audioBitrate < 150000 ∧ videoBitrate + audioBitrate > 60000)) ∧
        ((max videoLoss audioLoss > 3 ∨ rtt > 200 ∨
            (videoBitrate + audioBitrate < 500000 ∧ videoBitrate + audioBitrate > 60000)) ∨
          ¬(max videoLoss audioLoss < 2 ∧ rtt < 150)))) ∧
    (classifyQuality rtt (max videoLoss audioLoss) (videoBitrate + audioBitrate) = .HIGH ↔
      (¬(rtt > 500 ∨ max videoLoss audioLoss > 15) ∧
        ¬(max videoLoss audioLoss > 8 ∨ rtt > 400 ∨
          (videoBitrate + audioBitrate < 150000 ∧ videoBitrate + audioBitrate > 60000)) ∧
        ¬(max videoLoss audioLoss > 3 ∨ rtt > 200 ∨
          (videoBitrate + audioBitrate < 500000 ∧ videoBitrate + audioBitrate > 60000)) ∧
        (max videoLoss audioLoss < 2 ∧ rtt < 150))) ∧
    (∀ (now : ℚ) (s : StatsInput) (prev : Option LinkMetrics) (m : LinkMetrics),
      analyzeStats now s prev false = some m →
      m.quality = classifyQuality m.rtt (max m.videoPacketLoss m.audioPacketLoss)
        (m.videoBitrate + m.audioBitrate)) := by
  refine ⟨?_, ?_, ?_, ?_, ?_, ?_⟩
  · unfold classifyQuality
    split_ifs <;> simp
  · unfold classifyQuality BANDWIDTH_THRESHOLDS_LOW BANDWIDTH_THRESHOLDS_MEDIUM
    split_ifs <;> simp_all
  · unfold classifyQuality BANDWIDTH_THRESHOLDS_LOW BANDWIDTH_THRESHOLDS_MEDIUM
    split_ifs <;> simp_all
  · unfold classifyQuality BANDWIDTH_THRESHOLDS_LOW BANDWIDTH_THRESHOLDS_MEDIUM
    split_ifs <;> simp_all
  · unfold classifyQuality BANDWIDTH_THRESHOLDS_LOW BANDWIDTH_THRESHOLDS_MEDIUM
    split_ifs <;> simp_all
  · intro now s prev m h
    unfold analyzeStats at h
    split at h
    · exact absurd h (by simp)
    · simp only [Option.some.injEq] at h
      subst h
      rfl

/-- Witness for C1 at a concrete input: on the first tick outside the grace
period, the stored verdict is the classifier applied to the derived metrics. -/
theorem C1_witness :
    ∃ m, analyzeStats 0 C1input none false = some m ∧
      m.quality = classifyQuality m.rtt (max m.videoPacketLoss m.audioPacketLoss)
        (m.videoBitrate + m.audioBitrate) := by
  have h : (analyzeStats 0 C1input none false).isSome = true := by
    simp [analyzeStats, C1input]
  obtain ⟨m, hm⟩ := Option.isSome_iff_exists.mp h
  exact ⟨m, hm,
    (C1_classifier_first_match_total 0 0 0 0 0).2.2.2.2.2 0 C1input none m hm⟩

lemma analyzeStats_outVideo_eval (now : ℚ) (phase : Bool) (curr : OutboundRTP)
    (prevM : LinkMetrics) (pov : OutboundRTP) (hpov : prevM.outboundVideo = some pov) :
    analyzeStats now ⟨some curr, none, none, none, none, none, none⟩ (some prevM) phase =
      some { timestamp := now
             videoBitrate := (outboundDelta now curr prevM.timestamp pov).1
             audioBitrate := 0
             videoPacketLoss := min 50 (max 0 (outboundDelta now curr prevM.timestamp pov).2)
             audioPacketLoss := 0
             rtt := 0
             jitter := 0
             quality :=
               if phase = true then QualityLevel.HIGH
               else classifyQuality 0
                 (max (min 50 (max 0 (outboundDelta now curr prevM.timestamp pov).2)) 0)
                 ((outboundDelta now curr prevM.timestamp pov).1 + 0)
             outboundVideo := some curr
             outboundAudio := none } := by
  norm_num [analyzeStats, outboundPair, hpov, rttFromSources, rttFromRemote,
    rttFromRemoteAudio, remoteLossPct, hasRemoteSample, ite_self]
  intro h
  simp at h

lemma analyzeStats_outAudio_eval (now : ℚ) (phase : Bool) (curr : OutboundRTP)
    (prevM : LinkMetrics) (poa : OutboundRTP) (hpoa : prevM.outboundAudio = some poa) :
    analyzeStats now ⟨none, some curr, none, none, none, none, none⟩ (some prevM) phase =
      some { timestamp := now
             videoBitrate := 0
             audioBitrate := (outboundDelta now curr prevM.timestamp poa).1
             videoPacketLoss := 0
             audioPacketLoss := min 50 (max 0 (outboundDelta now curr prevM.timestamp poa).2)
             rtt := 0
             jitter := 0
             quality :=
               if phase = true then QualityLevel.HIGH
               else classifyQuality 0
                 (max 0 (min 50 (max 0 (outboundDelta now curr prevM.timestamp poa).2)))
                 (0 + (outboundDelta now curr prevM.timestamp poa).1)
             outboundVideo := none
             outboundAudio := some curr } := by
  norm_num [analyzeStats, outboundPair, hpoa, rttFromSources, rttFromRemote,
    rttFromRemoteAudio, remoteLossPct, hasRemoteSample, ite_self]
  intro h
  simp at h

/-- C6 counterexample: a loss computation over a sample window of only 10
packets (fewer than 100) reports 50%, extrapolated from the small sample,
not 0. -/
theorem C6_cex :
    (analyzeStats 5000 C6input (some C6prev) false).map LinkMetrics.videoPacketLoss =
      some 50 ∧
    ((10 : ℚ) - 0 < 100) ∧ ((50 : ℚ) ≠ 0) := by
  have h := analyzeStats_outVideo_eval 5000 false ⟨1000, 10, 5⟩ C6prev ⟨0, 0, 0⟩ rfl
  refine ⟨?_, by norm_num, by norm_num⟩
  rw [show C6input = ⟨some ⟨1000, 10, 5⟩, none, none, none, none, none, none⟩ from rfl, h]
  norm_num [outboundDelta, C6prev, min_def, max_def]

/-- C6 (amended): the analyzer's reported loss percentages always lie in
the interval 0 to 50; but the 100-packet minimum applies only to the
inbound-stats fallback path: on the outbound path, any window with a
positive packet delta (however small) yields the extrapolated percentage
min 50 (lostDelta / packetsDelta * 100). -/
theorem C6_loss_clamped_amended :
    (∀ (now : ℚ) (s : StatsInput) (prev : Option LinkMetrics) (phase : Bool)
        (m : LinkMetrics),
      analyzeStats now s prev phase = some m →
      0 ≤ m.videoPacketLoss ∧ m.videoPacketLoss ≤ 50 ∧
        0 ≤ m.audioPacketLoss ∧ m.audioPacketLoss ≤ 50) ∧
    (∀ (now : ℚ) (phase : Bool) (curr : OutboundRTP) (prevM : LinkMetrics)
        (pov : OutboundRTP) (m : LinkMetrics),
      prevM.outboundVideo = some pov →
      curr.packetsSent - pov.packetsSent > 0 →
      curr.packetsLost - pov.packetsLost ≥ 0 →
      analyzeStats now ⟨some curr, none, none, none, none, none, none⟩ (some prevM) phase =
        some m →
      m.videoPacketLoss =
        min 50 ((curr.packetsLost - pov.packetsLost) /
          (curr.packetsSent - pov.packetsSent) * 100)) := by
  constructor
  · intro now s prev phase m h
    unfold analyzeStats at h
    split at h
    · exact absurd h (by simp)
    · simp only [Option.some.injEq] at h
      subst h
      exact ⟨le_min (by norm_num) (le_max_left 0 _), min_le_left _ _,
        le_min (by norm_num) (le_max_left 0 _), min_le_left _ _⟩
  · intro now phase curr prevM pov m hpov hp hl h
    rw [analyzeStats_outVideo_eval now phase curr prevM pov hpov] at h
    simp only [Option.some.injEq] at h
    subst h
    show min 50 (max 0 (outboundDelta now curr prevM.timestamp pov).2) = _
    have hd2 : (outboundDelta now curr prevM.timestamp pov).2 =
        min 100 ((curr.packetsLost - pov.packetsLost) /
          (curr.packetsSent - pov.packetsSent) * 100) := by
      unfold outboundDelta
      simp only
      rw [if_pos ⟨hp, hl⟩]
    have hx : 0 ≤ (curr.packetsLost - pov.packetsLost) /
        (curr.packetsSent - pov.packetsSent) * 100 :=
      mul_nonneg (div_nonneg hl (le_of_lt hp)) (by norm_num)
    rw [hd2, max_eq_right (le_min (by norm_num) hx), ← min_assoc]
    norm_num

/-- Witness for C6 at concrete inputs: the 10-packet window with 5 lost
packets yields exactly min 50 (5/10 * 100) = 50, inside the clamp range. -/
theorem C6_witness :
    ∃ m, analyzeStats 5000 C6input (some C6prev) false = some m ∧
      m.videoPacketLoss = min 50 (((5 : ℚ) - 0) / (10 - 0) * 100) ∧
      0 ≤ m.videoPacketLoss ∧ m.videoPacketLoss ≤ 50 := by
  have hsome : (analyzeStats 5000 C6input (some C6prev) false).isSome = true := by
    simp [analyzeStats, C6input]
  obtain ⟨m, hm⟩ := Option.isSome_iff_exists.mp hsome
  have h2 := C6_loss_clamped_amended.2 5000 false ⟨1000, 10, 5⟩ C6prev ⟨0, 0, 0⟩ m rfl
    (by norm_num) (by norm_num) (by rw [← hm]; rfl)
  have h1 := C6_loss_clamped_amended.1 5000 C6input (some C6prev) false m hm
  exact ⟨m, hm, h2, h1.1, h1.2.1⟩

/-- C7 counterexample: on the first tick (no previous snapshot) the
analyzer does not report insufficient data: it returns metrics carrying the
verdict HIGH, which contributes to the cycle; and with a previous snapshot
whose timestamp equals the current time (time delta 0, not positive) it
still returns metrics rather than treating the tick as insufficient. -/
theorem C7_cex :
    (analyzeStats 1000 C7input none false).isSome = true ∧
    (analyzeStats 1000 C7input none false).map LinkMetrics.quality = some .HIGH ∧
    (analyzeStats 1000 C7input (some C7prevSame) false).isSome = true ∧
    ((1000 : ℚ) - C7prevSame.timestamp ≤ 0) := by
  refine ⟨by simp [analyzeStats, C7input], ?_, by simp [analyzeStats, C7input], ?_⟩
  · norm_num [analyzeStats, C7input, outboundPair, rttFromSources, rttFromRemote,
      rttFromRemoteAudio, remoteLossPct, hasRemoteSample, classifyQuality]
    exact ⟨_, ⟨by simp, rfl⟩, rfl⟩
  · norm_num [C7prevSame]

/-- C7 (amended): the analyzer reports no data exactly when the snapshot
contains none of the four rtp report kinds; when a previous snapshot is
missing it still returns metrics — with zero bitrates, and zero losses when
no receiver-reported counters are present — carrying a verdict that
contributes to the cycle; there is no guard treating a non-positive time
delta as insufficient data. -/
theorem C7_insufficient_data_amended :
    (∀ (now : ℚ) (s : StatsInput) (prev : Option LinkMetrics) (phase : Bool),
      analyzeStats now s prev phase = none ↔
        s.outboundVideo = none ∧ s.outboundAudio = none ∧ s.inboundVideo = none ∧
          s.inboundAudio = none) ∧
    (∀ (now : ℚ) (s : StatsInput) (phase : Bool) (m : LinkMetrics),
      analyzeStats now s none phase = some m →
      m.videoBitrate = 0 ∧ m.audioBitrate = 0 ∧
        (s.remoteInboundVideo = none → s.remoteInboundAudio = none →
          m.videoPacketLoss = 0 ∧ m.audioPacketLoss = 0)) := by
  constructor
  · intro now s prev phase
    constructor
    · intro h
      by_cases hc : s.outboundVideo = none ∧ s.outboundAudio = none ∧
          s.inboundVideo = none ∧ s.inboundAudio = none
      · exact hc
      · unfold analyzeStats at h
        rw [if_neg hc] at h
        exact absurd h (by simp)
    · intro hc
      unfold analyzeStats
      rw [if_pos hc]
  · intro now s phase m h
    unfold analyzeStats at h
    split at h
    · exact absurd h (by simp)
    · simp only [Option.some.injEq] at h
      subst h
      refine ⟨rfl, rfl, ?_⟩
      intro hrv hra
      simp only [hrv, hra]
      norm_num [hasRemoteSample, remoteLossPct, min_def, max_def]

/-- Witness for C7 at a concrete input: the first tick with an outbound
video report returns metrics with zero bitrate and zero loss. -/
theorem C7_witness :
    ∃ m, analyzeStats 1000 C7input none false = some m ∧ m.videoBitrate = 0 ∧
      m.videoPacketLoss = 0 := by
  have hsome : (analyzeStats 1000 C7input none false).isSome = true := by
    simp [analyzeStats, C7input]
  obtain ⟨m, hm⟩ := Option.isSome_iff_exists.mp hsome
  have h := C7_insufficient_data_amended.2 1000 C7input false m hm
  exact ⟨m, hm, h.1, (h.2.2 rfl rfl).1⟩

/-- C8 counterexample: a byte-counter decrease between successive snapshots
produces a negative video bitrate (-4000 bps), not a delta floored at 0. -/
theorem C8_cex :
    (analyzeStats 5000 C8input (some C8prev) false).map LinkMetrics.videoBitrate =
      some (-4000) ∧ ((-4000 : ℚ) < 0) := by
  have h := analyzeStats_outVideo_eval 5000 false ⟨500, 0, 0⟩ C8prev ⟨1000, 0, 0⟩ rfl
  refine ⟨?_, by norm_num⟩
  rw [show C8input = ⟨some ⟨500, 0, 0⟩, none, none, none, none, none, none⟩ from rfl, h]
  norm_num [outboundDelta, C8prev]

/-- C8 (amended): for video and audio independently, the computed bitrate
equals (bytesDelta * 8) / timeDeltaSec with bytesDelta the raw counter
difference — not floored at 0, so a byte-counter decrease yields a negative
bitrate for that tick — while a packet-counter decrease (or a negative lost
delta) yields loss 0 for that tick rather than a negative loss. -/
theorem C8_bitrate_no_floor_amended :
    (∀ (now : ℚ) (phase : Bool) (curr : OutboundRTP) (prevM : LinkMetrics)
        (pov : OutboundRTP) (m : LinkMetrics),
      prevM.outboundVideo = some pov →
      analyzeStats now ⟨some curr, none, none, none, none, none, none⟩ (some prevM) phase =
        some m →
      m.videoBitrate =
        (curr.bytesSent - pov.bytesSent) * 8 / ((now - prevM.timestamp) / 1000)) ∧
    (∀ (now : ℚ) (phase : Bool) (curr : OutboundRTP) (prevM : LinkMetrics)
        (poa : OutboundRTP) (m : LinkMetrics),
      prevM.outboundAudio = some poa →
      analyzeStats now ⟨none, some curr, none, none, none, none, none⟩ (some prevM) phase =
        some m →
      m.audioBitrate =
        (curr.bytesSent - poa.bytesSent) * 8 / ((now - prevM.timestamp) / 1000)) ∧
    (∀ (now : ℚ) (phase : Bool) (curr : OutboundRTP) (prevM : LinkMetrics)
        (pov : OutboundRTP) (m : LinkMetrics),
      prevM.outboundVideo = some pov →
      (curr.packetsSent - pov.packetsSent ≤ 0 ∨ curr.packetsLost - pov.packetsLost < 0) →
      analyzeStats now ⟨some curr, none, none, none, none, none, none⟩ (some prevM) phase =
        some m →
      m.videoPacketLoss = 0) := by
  refine ⟨?_, ?_, ?_⟩
  · intro now phase curr prevM pov m hpov h
    rw [analyzeStats_outVideo_eval now phase curr prevM pov hpov] at h
    simp only [Option.some.injEq] at h
    subst h
    rfl
  · intro now phase curr prevM poa m hpoa h
    rw [analyzeStats_outAudio_eval now phase curr prevM poa hpoa] at h
    simp only [Option.some.injEq] at h
    subst h
    rfl
  · intro now phase curr prevM pov m hpov hneg h
    rw [analyzeStats_outVideo_eval now phase curr prevM pov hpov] at h
    simp only [Option.some.injEq] at h
    subst h
    show min 50 (max 0 (outboundDelta now curr prevM.timestamp pov).2) = 0
    have hd2 : (outboundDelta now curr prevM.timestamp pov).2 = 0 := by
      unfold outboundDelta
      simp only
      rw [if_neg]
      rintro ⟨hp, hl⟩
      rcases hneg with hx | hx
      · linarith
      · linarith
    rw [hd2]
    norm_num

/-- Witness for C8 at concrete inputs: the decreasing byte counter yields
bitrate (500 - 1000) * 8 / 1 = -4000. -/
theorem C8_witness :
    ∃ m, analyzeStats 5000 C8input (some C8prev) false = some m ∧
      m.videoBitrate = ((500 : ℚ) - 1000) * 8 / ((5000 - 4000) / 1000) ∧
      m.videoBitrate < 0 := by
  have hsome : (analyzeStats 5000 C8input (some C8prev) false).isSome = true := by
    simp [analyzeStats, C8input]
  obtain ⟨m, hm⟩ := Option.isSome_iff_exists.mp hsome
  have h := C8_bitrate_no_floor_amended.1 5000 false ⟨500, 0, 0⟩ C8prev ⟨1000, 0, 0⟩ m rfl
    (by rw [← hm]; rfl)
  refine ⟨m, hm, ?_, ?_⟩
  · simpa [C8prev] using h
  · rw [h]
    norm_num [C8prev]

lemma speakerScan_spec (now : ℚ) :
    ∀ (l : List (Nat × AudioLevelEntry)) (acc : ℚ × Option Nat),
      (l.foldl (speakerFold now) acc = acc ∨
        ∃ p ∈ l, (now - p.2.timestamp < 2000 ∧ p.2.level > AUDIO_LEVEL_THRESHOLD) ∧
          l.foldl (speakerFold now) acc = (p.2.level, some p.1)) ∧
      acc.1 ≤ (l.foldl (speakerFold now) acc).1 ∧
      (∀ p ∈ l, (now - p.2.timestamp < 2000 ∧ p.2.level > AUDIO_LEVEL_THRESHOLD) →
        p.2.level ≤ (l.foldl (speakerFold now) acc).1) := by
  intro l
  induction l with
  | nil =>
    intro acc
    exact ⟨Or.inl rfl, le_refl _, fun p hp _ => absurd hp (List.not_mem_nil p)⟩
  | cons x t ih =>
    intro acc
    simp only [List.foldl_cons]
    obtain ⟨ihd, ihm, ihb⟩ := ih (speakerFold now acc x)
    have hstep_ge : acc.1 ≤ (speakerFold now acc x).1 := by
      unfold speakerFold
      split_ifs with hc
      · exact le_of_lt hc.2.1
      · exact le_refl _
    refine ⟨?_, le_trans hstep_ge ihm, ?_⟩
    · rcases ihd with h | ⟨p, hp, hq, hEq⟩
      · by_cases hc : now - x.2.timestamp < 2000 ∧ x.2.level > acc.1 ∧
            x.2.level > AUDIO_LEVEL_THRESHOLD
        · refine Or.inr ⟨x, List.mem_cons_self x t, ⟨hc.1, hc.2.2⟩, ?_⟩
          rw [h]
          unfold speakerFold
          rw [if_pos hc]
        · refine Or.inl ?_
          rw [h]
          unfold speakerFold
          rw [if_neg hc]
      · exact Or.inr ⟨p, List.mem_cons_of_mem x hp, hq, hEq⟩
    · intro p hp hq
      rcases List.mem_cons.mp hp with h1 | hmem
      · subst h1
        by_cases hc : now - p.2.timestamp < 2000 ∧ p.2.level > acc.1 ∧
            p.2.level > AUDIO_LEVEL_THRESHOLD
        · have hstep : (speakerFold now acc p).1 = p.2.level := by
            unfold speakerFold
            rw [if_pos hc]
          calc p.2.level = (speakerFold now acc p).1 := hstep.symm
            _ ≤ _ := ihm
        · have hle : p.2.level ≤ acc.1 := by
            by_contra hgt
            push_neg at hgt
            exact hc ⟨hq.1, hgt, hq.2⟩
          exact le_trans hle (le_trans hstep_ge ihm)
      · exact ihb p hmem hq

/-- C9 (amended): on a tick with a nonempty level store, the detector
selects, among participants whose level was updated within the last 2
seconds and exceeds the 0.01 threshold, one with the highest such level
(none when no participant qualifies), and the re-layout and bandwidth
reallocation action is emitted exactly when the winning identity differs
from the previous one; on a tick with an empty level store the previous
active speaker is kept, even though no participant qualifies; the concrete
scenario resolves to participant B. -/
theorem C9_active_speaker_amended :
    (∀ (now : ℚ) (active : Option Nat), updateActiveSpeaker now [] active = (active, false)) ∧
    (∀ (now : ℚ) (levels : List (Nat × AudioLevelEntry)) (active : Option Nat),
      levels ≠ [] →
      ((updateActiveSpeaker now levels active).1 = none →
        ∀ p ∈ levels, ¬(now - p.2.timestamp < 2000 ∧ p.2.level > AUDIO_LEVEL_THRESHOLD)) ∧
      (∀ pid : Nat, (updateActiveSpeaker now levels active).1 = some pid →
        ∃ e : AudioLevelEntry, (pid, e) ∈ levels ∧
          (now - e.timestamp < 2000 ∧ e.level > AUDIO_LEVEL_THRESHOLD) ∧
          ∀ q ∈ levels, (now - q.2.timestamp < 2000 ∧ q.2.level > AUDIO_LEVEL_THRESHOLD) →
            q.2.level ≤ e.level) ∧
      ((updateActiveSpeaker now levels active).2 = true ↔
        (updateActiveSpeaker now levels active).1 ≠ active)) ∧
    (updateActiveSpeaker 3000 [(0, ⟨1/50, 2500⟩), (1, ⟨3/5, 2900⟩), (2, ⟨1/2, 0⟩)] none =
      (some 1, true)) := by
  refine ⟨?_, ?_, ?_⟩
  · intro now active
    simp [updateActiveSpeaker]
  · intro now levels active hne
    have hlen : ¬levels.length = 0 := fun h0 => hne (List.length_eq_zero.mp h0)
    obtain ⟨hd, hmono, hbound⟩ := speakerScan_spec now levels (0, none)
    have hr1 : (updateActiveSpeaker now levels active).1 =
        (levels.foldl (speakerFold now) (0, none)).2 := by
      unfold updateActiveSpeaker
      rw [if_neg hlen]
      by_cases hx : (levels.foldl (speakerFold now) (0, none)).2 ≠ active
      · rw [if_pos hx]
      · rw [if_neg hx]
        push_neg at hx
        exact hx.symm
    refine ⟨?_, ?_, ?_⟩
    · intro hn p hp hq
      rw [hr1] at hn
      rcases hd with h0 | ⟨p', _, _, hEq⟩
      · have h1 := hbound p hp hq
        rw [h0] at h1
        simp only at h1
        have hA : AUDIO_LEVEL_THRESHOLD = (1 : ℚ)/100 := rfl
        rw [hA] at hq
        linarith [hq.2, h1]
      · rw [hEq] at hn
        simp at hn
    · intro pid hpid
      rw [hr1] at hpid
      rcases hd with h0 | ⟨p', hp', hq', hEq⟩
      · rw [h0] at hpid
        simp at hpid
      · rw [hEq] at hpid
        simp only [Option.some.injEq] at hpid
        subst hpid
        refine ⟨p'.2, by simpa using hp', hq', ?_⟩
        intro q hq hq2
        have hb := hbound q hq hq2
        rw [hEq] at hb
        simpa using hb
    · unfold updateActiveSpeaker
      rw [if_neg hlen]
      by_cases hx : (levels.foldl (speakerFold now) (0, none)).2 ≠ active
      · rw [if_pos hx]
        simpa using hx
      · rw [if_neg hx]
        push_neg at hx
        simp [hx]
  · norm_num [updateActiveSpeaker, speakerFold, AUDIO_LEVEL_THRESHOLD]
    decide

/-- C9 counterexample: with a stale active speaker (participant 1) and an
empty audio-level store — a tick on which no participant qualifies — the
detector keeps the previous active speaker instead of making the active
speaker absent. -/
theorem C9_cex :
    updateActiveSpeaker 5000 [] (some 1) = (some 1, false) ∧
    (updateActiveSpeaker 5000 [] (some 1)).1 ≠ none := by
  constructor
  · simp [updateActiveSpeaker]
  · simp [updateActiveSpeaker]

/-- Witness for C9 at the concrete scenario: the winner, participant 1
(B at level 0.6, age 100ms), qualifies and has the maximal qualifying
level. -/
theorem C9_witness :
    ∃ e : AudioLevelEntry,
      (1, e) ∈ [(0, (⟨1/50, 2500⟩ : AudioLevelEntry)), (1, ⟨3/5, 2900⟩), (2, ⟨1/2, 0⟩)] ∧
      ((3000 : ℚ) - e.timestamp < 2000 ∧ e.level > AUDIO_LEVEL_THRESHOLD) ∧
      ∀ q ∈ [(0, (⟨1/50, 2500⟩ : AudioLevelEntry)), (1, ⟨3/5, 2900⟩), (2, ⟨1/2, 0⟩)],
        ((3000 : ℚ) - q.2.timestamp < 2000 ∧ q.2.level > AUDIO_LEVEL_THRESHOLD) →
        q.2.level ≤ e.level := by
  refine (C9_active_speaker_amended.2.1 3000
    [(0, ⟨1/50, 2500⟩), (1, ⟨3/5, 2900⟩), (2, ⟨1/2, 0⟩)] none (by simp)).2.1 1 ?_
  rw [C9_active_speaker_amended.2.2]
